import Mathlib

/-!
Shallow embedding of the UIAA (user-interactive authentication) service of
the repository, translated from src/service/uiaa/mod.rs.  External
collaborators (identity parsing, password hashing, configuration, random
token generation) are passed in an explicit environment record; the
persistent key-value map and the in-memory replay cache are modelled as
association lists threaded through the operations.
-/

set_option autoImplicit false

namespace Uiaa

/-- A Matrix user id, reduced to the two components the UIAA code reads:
the localpart and the server name. -/
structure UserId where
  localpart : String
  server_name : String
deriving DecidableEq, Repr

/-- ruma AuthType: the kinds of authentication stages.  The service code
handles password, registration token and dummy; every other kind falls
into the unsupported arm of the match. -/
inductive AuthType where
  | password
  | registrationToken
  | dummy
  | reCaptcha
  | emailIdentity
  | msisdn
  | sso
deriving DecidableEq, Repr

/-- ruma UserIdentifier: the code only recognises the
UserIdOrLocalpart shape; every other shape is rejected as Unrecognized. -/
inductive UserIdentifier where
  | userIdOrLocalpart (username : String)
  | otherShape
deriving DecidableEq, Repr

/-- ruma AuthData: one submitted proof.  Each variant carries the optional
session token returned by auth.session() in the source. -/
inductive AuthData where
  | password (identifier : Option UserIdentifier) (pw : String) (session : Option String)
  | registrationToken (token : String) (session : Option String)
  | dummy (session : Option String)
  | other (kind : AuthType) (session : Option String)
deriving DecidableEq, Repr

/-- auth.session() from ruma: the session token carried by the proof. -/
def AuthData.session : AuthData → Option String
  | .password _ _ s => s
  | .registrationToken _ s => s
  | .dummy s => s
  | .other _ s => s

/-- ruma StandardErrorBody as used by the service: an error kind tag and a
message. -/
structure StandardErrorBody where
  kind : String
  message : String
deriving DecidableEq, Repr

/-- One declared flow: an ordered list of required stages. -/
structure AuthFlow where
  stages : List AuthType
deriving DecidableEq, Repr

/-- ruma UiaaInfo, the per-session progress record: declared flows, the
completed list (a Vec in the source, pushed on success), the session
token and the last soft-failure error body. -/
structure UiaaInfo where
  flows : List AuthFlow
  completed : List AuthType
  session : Option String
  auth_error : Option StandardErrorBody
deriving DecidableEq, Repr

/-- The hard errors try_auth can return, one per early-return site of the
source. -/
inductive UiaaError where
  /-- BadRequest Unrecognized: the identifier shape is not recognised. -/
  | unrecognized
  /-- BadRequest InvalidParam: UserId.parse_with_server_name failed. -/
  | invalidUserId
  /-- Request Forbidden: the access token user and the proof user differ. -/
  | userMismatch
  /-- Request Forbidden: get_uiaa_session found no stored session. -/
  | sessionMissing
deriving DecidableEq, Repr

/-- Whether the error surfaces as a forbidden-style error in the source
(Err!(Request(Forbidden(..))) as opposed to BadRequest). -/
def UiaaError.isForbidden : UiaaError → Bool
  | .userMismatch => true
  | .sessionMissing => true
  | .unrecognized => false
  | .invalidUserId => false

/-- The external collaborators of the service, as pure functions: the
server name, ruma user-id parsing, the users service password-hash lookup
(none models the Err of the source), the trusted hash verifier, the two
registration-token configuration items (the inner Option of the file field
distinguishes a readable file from a read error), and the random token
utils.random_string would produce next. -/
structure Env where
  server_name : String
  parse_with_server_name : String → String → Option UserId
  password_hash : UserId → Option String
  verify_password : String → String → Bool
  registration_token : Option String
  registration_token_file : Option (Option String)
  fresh_session : String

/-- Rust char.is_ascii_whitespace. -/
def isAsciiWhitespace (c : Char) : Bool :=
  c = ' ' || c = '\t' || c = '\n' || c = '\x0c' || c = '\r'

/-- Rust str.trim: drop leading and trailing whitespace characters. -/
def strTrim (s : String) : String :=
  String.mk (((s.data.dropWhile (fun c => c.isWhitespace)).reverse.dropWhile
    (fun c => c.isWhitespace)).reverse)

/-- Helper of splitAsciiWhitespace: walk the characters, accumulating the
current fragment in reverse. -/
def splitAsciiWhitespaceAux : List Char → List Char → List String
  | [], acc => if acc = [] then [] else [String.mk acc.reverse]
  | c :: cs, acc =>
    if isAsciiWhitespace c then
      if acc = [] then splitAsciiWhitespaceAux cs []
      else String.mk acc.reverse :: splitAsciiWhitespaceAux cs []
    else splitAsciiWhitespaceAux cs (c :: acc)

/-- Rust str.split_ascii_whitespace: the maximal fragments of the string
separated by ASCII whitespace, with no empty fragments. -/
def splitAsciiWhitespace (s : String) : List String :=
  splitAsciiWhitespaceAux s.data []

/-- read_tokens: the valid registration tokens, a HashSet in the source,
modelled as the list of its insertions: the whitespace-separated contents
of the token file when it is configured and readable (a read error is
logged and contributes nothing), then the statically configured token. -/
def read_tokens (env : Env) : List String :=
  let tokens : List String := []
  let tokens := match env.registration_token_file with
    | some (some text) => tokens ++ splitAsciiWhitespace text
    | some none => tokens
    | none => tokens
  match env.registration_token with
  | some token => tokens ++ [token]
  | none => tokens

/-- The key of both the session store and the replay cache:
(user id, device id, session token). -/
abbrev SessionKey := UserId × String × String

/-- The persisted userdevicesessionid_uiaainfo map, as an association
list. -/
abbrev SessionStore := List (SessionKey × UiaaInfo)

/-- Point lookup in the session store (db qry + deserialized): the first
entry under the key, if any. -/
def store_get : SessionStore → SessionKey → Option UiaaInfo
  | [], _ => none
  | p :: ps, k => if p.1 = k then some p.2 else store_get ps k

/-- Overwriting put into the session store. -/
def store_put (db : SessionStore) (k : SessionKey) (v : UiaaInfo) : SessionStore :=
  (k, v) :: db.filter (fun p => p.1 ≠ k)

/-- Point delete from the session store. -/
def store_del (db : SessionStore) (k : SessionKey) : SessionStore :=
  db.filter (fun p => p.1 ≠ k)

/-- update_uiaa_session: put the serialized UiaaInfo under the key, or
delete the key when passed None. -/
def update_uiaa_session (db : SessionStore) (user_id : UserId) (device_id : String)
    (session : String) (uiaainfo : Option UiaaInfo) : SessionStore :=
  match uiaainfo with
  | some info => store_put db (user_id, device_id, session) info
  | none => store_del db (user_id, device_id, session)

/-- get_uiaa_session: load the stored progress, mapping a missing entry to
the forbidden session-does-not-exist error. -/
def get_uiaa_session (db : SessionStore) (user_id : UserId) (device_id : String)
    (session : String) : Except UiaaError UiaaInfo :=
  match store_get db (user_id, device_id, session) with
  | some info => .ok info
  | none => .error .sessionMissing

/-- Step 1 of try_auth: when the proof carries a session token, load the
stored progress (hard error when absent); otherwise start from the
caller-supplied fallback UiaaInfo. -/
def load_session (db : SessionStore) (user_id : UserId) (device_id : String)
    (auth : AuthData) (uiaainfo : UiaaInfo) : Except UiaaError UiaaInfo :=
  match auth.session with
  | some session => get_uiaa_session db user_id device_id session
  | none => .ok uiaainfo

/-- The auth_error body written on a wrong password. -/
def invalidPasswordBody : StandardErrorBody :=
  { kind := "M_FORBIDDEN", message := "Invalid username or password." }

/-- The auth_error body written on a wrong registration token. -/
def invalidTokenBody : StandardErrorBody :=
  { kind := "M_FORBIDDEN", message := "Invalid registration token." }

/-- Outcome of the stage-verification match of try_auth: a soft failure
returns (false, info) at once, everything else proceeds to the flow
check. -/
inductive StageOutcome where
  | softFail (info : UiaaInfo)
  | proceed (info : UiaaInfo)
deriving DecidableEq, Repr

/-- The match auth block of try_auth, verbatim from the source (the
default build, without the element_hacks feature): password proofs resolve
the identifier, parse the user id, compare localparts against the caller,
then compare the password against the stored hash when one exists — an
absent hash falls through to the completion push; registration tokens are
trimmed and tested against read_tokens; dummy always completes;
every other kind is logged and changes nothing. -/
def verify_stage (env : Env) (user_id : UserId) (auth : AuthData) (info : UiaaInfo) :
    Except UiaaError StageOutcome :=
  match auth with
  | .password identifier password _ =>
    match identifier with
    | some (.userIdOrLocalpart username) =>
      match env.parse_with_server_name username env.server_name with
      | none => .error .invalidUserId
      | some user_id_from_username =>
        if user_id.localpart ≠ user_id_from_username.localpart then
          .error .userMismatch
        else
          match env.password_hash user_id_from_username with
          | some hash =>
            if env.verify_password password hash then
              .ok (.proceed { info with completed := info.completed ++ [.password] })
            else
              .ok (.softFail { info with auth_error := some invalidPasswordBody })
          | none =>
            .ok (.proceed { info with completed := info.completed ++ [.password] })
    | _ => .error .unrecognized
  | .registrationToken token _ =>
    if (read_tokens env).contains (strTrim token) then
      .ok (.proceed { info with completed := info.completed ++ [.registrationToken] })
    else
      .ok (.softFail { info with auth_error := some invalidTokenBody })
  | .dummy _ =>
    .ok (.proceed { info with completed := info.completed ++ [.dummy] })
  | .other _ _ =>
    .ok (.proceed info)

/-- The flow check of try_auth: the loop over uiaainfo.flows that sets
completed to true for every flow all of whose stages are already in the
completed list, and keeps scanning the remaining flows. -/
def is_satisfied (flows : List AuthFlow) (completed : List AuthType) : Bool :=
  flows.foldl
    (fun acc flow =>
      if flow.stages.all (fun stage => completed.contains stage) then true else acc)
    false

/-- The session token try_auth continues with: the one already recorded
in the resolved UiaaInfo, or the fresh random string when none is set. -/
def session_or_fresh (env : Env) (info : UiaaInfo) : String :=
  match info.session with
  | some s => s
  | none => env.fresh_session

/-- try_auth: resolve the session (loading stored progress when the proof
carries a token), synthesize a fresh session token when none is set, run
the stage verifier, and on a proceed outcome run the flow check: when no
flow is satisfied the progress is persisted and (false, info) returned;
when one is satisfied the session is deleted and (true, info) returned.
Hard errors and soft failures return before any store write.  The second
component is the session store after the call. -/
def try_auth (env : Env) (db : SessionStore) (user_id : UserId) (device_id : String)
    (auth : AuthData) (uiaainfo : UiaaInfo) :
    Except UiaaError (Bool × UiaaInfo) × SessionStore :=
  match load_session db user_id device_id auth uiaainfo with
  | .error e => (.error e, db)
  | .ok info0 =>
    let sess := session_or_fresh env info0
    let info1 := { info0 with session := some sess }
    match verify_stage env user_id auth info1 with
    | .error e => (.error e, db)
    | .ok (.softFail info2) => (.ok (false, info2), db)
    | .ok (.proceed info2) =>
      if is_satisfied info2.flows info2.completed then
        (.ok (true, info2), update_uiaa_session db user_id device_id sess none)
      else
        (.ok (false, info2), update_uiaa_session db user_id device_id sess (some info2))

/-- The in-memory replay cache mapping the session key to the original
request body (an opaque canonical JSON value, modelled as a string). -/
abbrev ReplayCache := List (SessionKey × String)

/-- Point lookup in the replay cache. -/
def request_get : ReplayCache → SessionKey → Option String
  | [], _ => none
  | p :: ps, k => if p.1 = k then some p.2 else request_get ps k

/-- set_uiaa_request: insert the original request body under the key,
overwriting any previous entry. -/
def set_uiaa_request (cache : ReplayCache) (user_id : UserId) (device_id : String)
    (session : String) (request : String) : ReplayCache :=
  ((user_id, device_id, session), request)
    :: cache.filter (fun p => p.1 ≠ (user_id, device_id, session))

/-- get_uiaa_request: look the request up, substituting the EMPTY sentinel
device id when the caller passes none. -/
def get_uiaa_request (cache : ReplayCache) (user_id : UserId) (device_id : Option String)
    (session : String) : Option String :=
  request_get cache (user_id, device_id.getD "", session)

/-- create: store the original request in the replay cache and the initial
UiaaInfo in the session store, both keyed by the session token of the
supplied UiaaInfo.  The source unwraps that token with expect, panicking
when it is absent; the panic is modelled as none, with neither write
performed. -/
def create (user_id : UserId) (device_id : String) (uiaainfo : UiaaInfo)
    (json_body : String) (cache : ReplayCache) (db : SessionStore) :
    Option (ReplayCache × SessionStore) :=
  match uiaainfo.session with
  | none => none
  | some s =>
    some (set_uiaa_request cache user_id device_id s json_body,
      update_uiaa_session db user_id device_id s (some uiaainfo))

/-! ## Helper lemmas -/

/-- The flow-check loop, which never breaks out early, computes the same
boolean as List.any of the per-flow subset test. -/
theorem foldl_flow_loop (p : AuthFlow → Bool) (l : List AuthFlow) (b : Bool) :
    l.foldl (fun acc flow => if p flow then true else acc) b = (b || l.any p) := by
  induction l generalizing b with
  | nil => simp
  | cons x xs ih =>
    rw [List.foldl_cons, ih, List.any_cons]
    cases b <;> cases hx : p x <;> simp [hx]

theorem is_satisfied_eq_any (flows : List AuthFlow) (completed : List AuthType) :
    is_satisfied flows completed
      = flows.any (fun flow => flow.stages.all (fun stage => completed.contains stage)) := by
  rw [is_satisfied, foldl_flow_loop]
  simp

theorem store_get_del_self (db : SessionStore) (k : SessionKey) :
    store_get (store_del db k) k = none := by
  induction db with
  | nil => rfl
  | cons x xs ih =>
    by_cases hx : x.1 = k
    · simpa [store_del, List.filter_cons, hx] using ih
    · simpa [store_del, store_get, List.filter_cons, hx] using ih

theorem store_get_del_ne (db : SessionStore) (k k' : SessionKey) (h : k' ≠ k) :
    store_get (store_del db k) k' = store_get db k' := by
  induction db with
  | nil => rfl
  | cons x xs ih =>
    have hne : ¬ (k = k') := fun he => h he.symm
    by_cases hx : x.1 = k
    · have hx' : ¬ (x.1 = k') := by rw [hx]; exact hne
      simpa [store_del, store_get, List.filter_cons, hx, hx', hne] using ih
    · by_cases hk' : x.1 = k'
      · simp [store_del, store_get, List.filter_cons, hx, hk', h, hne]
      · simpa [store_del, store_get, List.filter_cons, hx, hk', hne] using ih

theorem store_get_put_self (db : SessionStore) (k : SessionKey) (v : UiaaInfo) :
    store_get (store_put db k v) k = some v := by
  simp [store_put, store_get]

theorem store_get_put_ne (db : SessionStore) (k k' : SessionKey) (v : UiaaInfo)
    (h : k' ≠ k) :
    store_get (store_put db k v) k' = store_get db k' := by
  have hkk : ¬ (k = k') := fun he => h he.symm
  calc store_get (store_put db k v) k'
      = store_get (store_del db k) k' := by
        simp only [store_put, store_del, store_get]
        rw [if_neg hkk]
    _ = store_get db k' := store_get_del_ne db k k' h

/-- On a proceed outcome the stage verifier leaves flows, session and
auth_error untouched and appends at most one stage to completed. -/
theorem verify_stage_proceed_shape (env : Env) (user_id : UserId) (auth : AuthData)
    (info info2 : UiaaInfo)
    (h : verify_stage env user_id auth info = .ok (.proceed info2)) :
    info2.flows = info.flows ∧ info2.session = info.session
    ∧ info2.auth_error = info.auth_error
    ∧ (info2.completed = info.completed ∨ ∃ st, info2.completed = info.completed ++ [st]) := by
  unfold verify_stage at h
  repeat' split at h
  all_goals simp_all
  all_goals subst h
  all_goals simp

/-- A try_auth call that carries a session token not present in the store
fails with the session-missing error and leaves the store unchanged. -/
theorem try_auth_unknown_session (env : Env) (db : SessionStore) (user_id : UserId)
    (device_id : String) (auth : AuthData) (uiaainfo : UiaaInfo) (s : String)
    (hs : auth.session = some s)
    (hget : store_get db (user_id, device_id, s) = none) :
    try_auth env db user_id device_id auth uiaainfo = (.error .sessionMissing, db) := by
  simp [try_auth, load_session, hs, get_uiaa_session, hget]

/-! ## Claims -/

/-- C1: the flow-satisfaction check of try_auth reports the session
satisfied iff some declared flow has all of its stages contained in the
completed list (an order-independent subset test, OR across flows); in
particular it reports false when the flow list is empty, and true when
some declared flow has an empty stage list. -/
theorem is_satisfied_iff_subset (flows : List AuthFlow) (completed : List AuthType) :
    (is_satisfied flows completed = true ↔
      ∃ flow ∈ flows, ∀ stage ∈ flow.stages, stage ∈ completed)
    ∧ is_satisfied [] completed = false
    ∧ (∀ flow ∈ flows, flow.stages = [] → is_satisfied flows completed = true) := by
  refine ⟨?_, by simp [is_satisfied], ?_⟩
  · rw [is_satisfied_eq_any]
    simp
  · intro flow hmem hempty
    rw [is_satisfied_eq_any]
    simp only [List.any_eq_true]
    exact ⟨flow, hmem, by simp [hempty]⟩

theorem is_satisfied_iff_subset_witness :
    is_satisfied [AuthFlow.mk []] [AuthType.dummy] = true :=
  (is_satisfied_iff_subset [AuthFlow.mk []] [AuthType.dummy]).2.2
    (AuthFlow.mk []) (by simp) rfl

/-! ## Concrete test fixtures used by witnesses and counterexamples -/

def testAlice : UserId := { localpart := "alice", server_name := "example.org" }

def testBob : UserId := { localpart := "bob", server_name := "example.org" }

def emptyInfo : UiaaInfo :=
  { flows := [], completed := [], session := none, auth_error := none }

/-- A concrete environment: user-id parsing succeeds on every non-empty
localpart, only alice has a stored password hash, the password "correct"
matches it, one static registration token and a readable token file with
two tokens are configured. -/
def envW : Env :=
  { server_name := "example.org"
    parse_with_server_name := fun username server =>
      if username = "" then none
      else some { localpart := username, server_name := server }
    password_hash := fun uid =>
      if uid.localpart = "alice" then some "goodhash" else none
    verify_password := fun pw hash => pw == "correct" && hash == "goodhash"
    registration_token := some "statictok"
    registration_token_file := some (some "filetok1 filetok2\n")
    fresh_session := "FRESHFRESHFRESHFRESHFRESHFRESH12" }

/-- C2: a password proof whose resolved identity has a localpart differing
from the callers transport-authenticated identity always gets a hard
forbidden-style error, whatever the supplied password, and the session
store is returned unchanged; when the proof carries no session token the
error is exactly the user-mismatch error. -/
theorem try_auth_mismatch_forbidden (env : Env) (db : SessionStore) (user_id : UserId)
    (device_id : String) (username pw : String) (sess : Option String)
    (uiaainfo : UiaaInfo) (uid : UserId)
    (hparse : env.parse_with_server_name username env.server_name = some uid)
    (hne : uid.localpart ≠ user_id.localpart) :
    ∃ e : UiaaError,
      try_auth env db user_id device_id
          (.password (some (.userIdOrLocalpart username)) pw sess) uiaainfo
        = (.error e, db)
      ∧ e.isForbidden = true
      ∧ (sess = none → e = .userMismatch) := by
  cases sess with
  | none =>
    refine ⟨.userMismatch, ?_, rfl, fun _ => rfl⟩
    simp [try_auth, load_session, AuthData.session, verify_stage, hparse, Ne.symm hne]
  | some s =>
    cases hget : store_get db (user_id, device_id, s) with
    | none =>
      refine ⟨.sessionMissing, ?_, rfl, by simp⟩
      simp [try_auth, load_session, AuthData.session, get_uiaa_session, hget]
    | some info0 =>
      refine ⟨.userMismatch, ?_, rfl, by simp⟩
      simp [try_auth, load_session, AuthData.session, get_uiaa_session, hget,
        verify_stage, hparse, Ne.symm hne]

theorem try_auth_mismatch_forbidden_witness :
    ∃ e : UiaaError,
      try_auth envW [] testAlice "DEV"
          (.password (some (.userIdOrLocalpart "bob")) "correct" none) emptyInfo
        = (.error e, [])
      ∧ e.isForbidden = true
      ∧ ((none : Option String) = none → e = .userMismatch) :=
  try_auth_mismatch_forbidden envW [] testAlice "DEV" "bob" "correct" none emptyInfo
    { localpart := "bob", server_name := "example.org" } rfl (by decide)

/-- C3: at the concrete failing input — the authenticated user bob, whose
stored password hash is absent, submitting a password proof with an
arbitrary password against the single flow [Password] — try_auth does not
abort, but it also pushes Password onto completed and reports the whole
session satisfied, contradicting the claim that the stage is not marked
completed when the hash lookup fails. -/
theorem try_auth_missing_hash_marks_password :
    try_auth envW [] testBob "DEV"
        (.password (some (.userIdOrLocalpart "bob")) "anything" none)
        { flows := [AuthFlow.mk [.password]], completed := [],
          session := none, auth_error := none }
      = (.ok (true,
          { flows := [AuthFlow.mk [.password]], completed := [AuthType.password],
            session := some "FRESHFRESHFRESHFRESHFRESHFRESH12", auth_error := none }), []) := by
  rfl

/-- The stored progress of an in-flight session used by the C4 scenario. -/
def infoC4 : UiaaInfo :=
  { flows := [AuthFlow.mk [.password]], completed := [],
    session := some "sess1", auth_error := none }

/-- A store holding exactly that session. -/
def dbC4 : SessionStore := [((testAlice, "DEV", "sess1"), infoC4)]

/-- C4 counterexample: at a concrete wrong-password attempt against a
stored session, try_auth returns Ok (false, snapshot-with-auth_error) but
leaves the session store exactly as it was: the stored progress still has
no auth_error, so the updated progress was not persisted, contrary to the
claim. -/
theorem try_auth_soft_fail_cex :
    try_auth envW dbC4 testAlice "DEV"
        (.password (some (.userIdOrLocalpart "alice")) "wrong" (some "sess1")) emptyInfo
      = (.ok (false, { infoC4 with auth_error := some invalidPasswordBody }), dbC4)
    ∧ store_get dbC4 (testAlice, "DEV", "sess1") = some infoC4
    ∧ infoC4 ≠ { infoC4 with auth_error := some invalidPasswordBody } :=
  ⟨rfl, rfl, by decide⟩

/-- C4 amended: on every soft verification failure (wrong password against
a present hash, or a registration token outside the valid set) try_auth
sets the matching auth_error on the returned progress snapshot and returns
Ok (false, progress), but performs no store write: the session store is
returned unchanged, so the updated progress is not persisted. -/
theorem try_auth_soft_fail_unpersisted (env : Env) (db : SessionStore) (user_id : UserId)
    (device_id : String) (auth : AuthData) (uiaainfo info0 : UiaaInfo)
    (hload : load_session db user_id device_id auth uiaainfo = .ok info0) :
    (∀ username pw sess uid hash,
      auth = .password (some (.userIdOrLocalpart username)) pw sess →
      env.parse_with_server_name username env.server_name = some uid →
      uid.localpart = user_id.localpart →
      env.password_hash uid = some hash →
      env.verify_password pw hash = false →
      try_auth env db user_id device_id auth uiaainfo
        = (.ok (false,
            { info0 with
              session := some (session_or_fresh env info0)
              auth_error := some invalidPasswordBody }), db))
    ∧ (∀ tok sess,
      auth = .registrationToken tok sess →
      (read_tokens env).contains (strTrim tok) = false →
      try_auth env db user_id device_id auth uiaainfo
        = (.ok (false,
            { info0 with
              session := some (session_or_fresh env info0)
              auth_error := some invalidTokenBody }), db)) := by
  constructor
  · intro username pw sess uid hash hauth hparse hlp hhash hverify
    subst hauth
    simp [try_auth, hload, verify_stage, hparse, hlp, hhash, hverify]
  · intro tok sess hauth htok
    subst hauth
    have h2 : strTrim tok ∉ read_tokens env := by simpa using htok
    simp [try_auth, hload, verify_stage, h2]

theorem try_auth_soft_fail_unpersisted_witness :
    try_auth envW [] testAlice "DEV"
        (.password (some (.userIdOrLocalpart "alice")) "wrong" none)
        { emptyInfo with flows := [AuthFlow.mk [.password]], session := some "sess1" }
      = (.ok (false,
          { emptyInfo with
            flows := [AuthFlow.mk [.password]]
            session := some "sess1"
            auth_error := some invalidPasswordBody }), []) :=
  (try_auth_soft_fail_unpersisted envW [] testAlice "DEV"
      (.password (some (.userIdOrLocalpart "alice")) "wrong" none)
      { emptyInfo with flows := [AuthFlow.mk [.password]], session := some "sess1" }
      { emptyInfo with flows := [AuthFlow.mk [.password]], session := some "sess1" }
      rfl).1
    "alice" "wrong" none { localpart := "alice", server_name := "example.org" }
    "goodhash" rfl rfl rfl rfl rfl

/-- C5: whenever try_auth reports the session satisfied it has deleted
the persisted progress under the session key and returned (true,
progress); a later try_auth supplying that session token gets the hard
forbidden session-does-not-exist error, and a try_auth supplying any
session token absent from the store gets the same error with the store
unchanged — a session is never auto-created from an unknown token. -/
theorem try_auth_success_terminal :
    (∀ (env : Env) (db : SessionStore) (user_id : UserId) (device_id : String)
        (auth : AuthData) (uiaainfo info' : UiaaInfo) (db' : SessionStore),
      try_auth env db user_id device_id auth uiaainfo = (.ok (true, info'), db') →
      ∃ s, info'.session = some s
        ∧ db' = store_del db (user_id, device_id, s)
        ∧ store_get db' (user_id, device_id, s) = none
        ∧ ∀ (env2 : Env) (auth2 : AuthData) (uiaainfo2 : UiaaInfo),
            auth2.session = some s →
            try_auth env2 db' user_id device_id auth2 uiaainfo2 = (.error .sessionMissing, db'))
    ∧ (∀ (env : Env) (db : SessionStore) (user_id : UserId) (device_id : String)
        (auth : AuthData) (uiaainfo : UiaaInfo) (s : String),
      auth.session = some s →
      store_get db (user_id, device_id, s) = none →
      try_auth env db user_id device_id auth uiaainfo = (.error .sessionMissing, db)) := by
  refine ⟨?_, fun env db u d auth info s hs hget =>
    try_auth_unknown_session env db u d auth info s hs hget⟩
  intro env db user_id device_id auth uiaainfo info' db' hrun
  simp only [try_auth] at hrun
  cases hload : load_session db user_id device_id auth uiaainfo with
  | error e => rw [hload] at hrun; simp at hrun
  | ok info0 =>
    rw [hload] at hrun
    simp only at hrun
    cases hver : verify_stage env user_id auth
        { info0 with session := some (session_or_fresh env info0) } with
    | error e => rw [hver] at hrun; simp at hrun
    | ok outcome =>
      rw [hver] at hrun
      cases outcome with
      | softFail info2 => simp at hrun
      | proceed info2 =>
        simp only at hrun
        cases hsat : is_satisfied info2.flows info2.completed with
        | false => rw [hsat] at hrun; simp at hrun
        | true =>
          rw [hsat] at hrun
          simp only [if_true, update_uiaa_session, Prod.mk.injEq] at hrun
          obtain ⟨h1, hdb⟩ := hrun
          have h1' : info2 = info' := by simpa using h1
          obtain ⟨hf, hs, ha, hc⟩ := verify_stage_proceed_shape env user_id auth _ _ hver
          refine ⟨session_or_fresh env info0, ?_, hdb.symm, ?_, ?_⟩
          · rw [← h1', hs]
          · rw [← hdb]
            exact store_get_del_self db _
          · intro env2 auth2 uiaainfo2 hs2
            exact try_auth_unknown_session env2 db' user_id device_id auth2 uiaainfo2 _ hs2
              (by rw [← hdb]; exact store_get_del_self db _)

/-- The stored progress of the session used by the C5 witness. -/
def infoC5 : UiaaInfo :=
  { flows := [AuthFlow.mk [.dummy]], completed := [],
    session := some "sessC5", auth_error := none }

/-- A store holding exactly that session. -/
def dbC5 : SessionStore := [((testAlice, "DEV", "sessC5"), infoC5)]

theorem try_auth_success_terminal_witness :
    ∃ s, ({ infoC5 with completed := [AuthType.dummy] } : UiaaInfo).session = some s
      ∧ ([] : SessionStore) = store_del dbC5 (testAlice, "DEV", s)
      ∧ store_get ([] : SessionStore) (testAlice, "DEV", s) = none
      ∧ ∀ (env2 : Env) (auth2 : AuthData) (uiaainfo2 : UiaaInfo),
          auth2.session = some s →
          try_auth env2 [] testAlice "DEV" auth2 uiaainfo2 = (.error .sessionMissing, []) :=
  try_auth_success_terminal.1 envW dbC5 testAlice "DEV" (.dummy (some "sessC5"))
    emptyInfo { infoC5 with completed := [AuthType.dummy] } [] rfl

/-- C6: the valid registration token set is the union of the
whitespace-separated contents of the optional token file (read on the
check) and the zero-or-one statically configured token, and a
registration-token proof marks RegistrationToken completed exactly when
the supplied token, after trimming, is a member of that set (exact,
case-sensitive string equality); otherwise it is a soft failure. -/
theorem try_auth_registration_token :
    (∀ (env : Env) (tok : String),
      tok ∈ read_tokens env ↔
        (∃ text, env.registration_token_file = some (some text)
          ∧ tok ∈ splitAsciiWhitespace text)
        ∨ env.registration_token = some tok)
    ∧ (∀ (env : Env) (db : SessionStore) (user_id : UserId) (device_id : String)
        (tok : String) (sess : Option String) (uiaainfo info0 : UiaaInfo),
      load_session db user_id device_id (.registrationToken tok sess) uiaainfo = .ok info0 →
      ((read_tokens env).contains (strTrim tok) = true →
        ∃ b db', try_auth env db user_id device_id (.registrationToken tok sess) uiaainfo
          = (.ok (b,
              { info0 with
                session := some (session_or_fresh env info0)
                completed := info0.completed ++ [AuthType.registrationToken] }), db'))
      ∧ ((read_tokens env).contains (strTrim tok) = false →
        try_auth env db user_id device_id (.registrationToken tok sess) uiaainfo
          = (.ok (false,
              { info0 with
                session := some (session_or_fresh env info0)
                auth_error := some invalidTokenBody }), db))) := by
  constructor
  · intro env tok
    unfold read_tokens
    cases hf : env.registration_token_file with
    | none => cases ht : env.registration_token <;> simp [hf, ht, eq_comm]
    | some fo =>
      cases fo with
      | none => cases ht : env.registration_token <;> simp [hf, ht, eq_comm]
      | some text => cases ht : env.registration_token <;> simp [hf, ht, eq_comm]
  · intro env db user_id device_id tok sess uiaainfo info0 hload
    constructor
    · intro htok
      have h2 : strTrim tok ∈ read_tokens env := by simpa using htok
      cases hsat : is_satisfied info0.flows (info0.completed ++ [AuthType.registrationToken]) with
      | true =>
        refine ⟨true,
          update_uiaa_session db user_id device_id (session_or_fresh env info0) none, ?_⟩
        simp [try_auth, hload, verify_stage, h2, hsat]
      | false =>
        refine ⟨false, update_uiaa_session db user_id device_id (session_or_fresh env info0)
          (some { info0 with
                  session := some (session_or_fresh env info0)
                  completed := info0.completed ++ [AuthType.registrationToken] }), ?_⟩
        simp [try_auth, hload, verify_stage, h2, hsat]
    · intro htok
      have h2 : strTrim tok ∉ read_tokens env := by simpa using htok
      simp [try_auth, hload, verify_stage, h2]

/-- The fallback UiaaInfo of the C6 witness: one flow requiring only the
registration token. -/
def infoRT : UiaaInfo :=
  { flows := [AuthFlow.mk [.registrationToken]], completed := [],
    session := none, auth_error := none }

theorem try_auth_registration_token_witness :
    ∃ b db', try_auth envW [] testAlice "DEV" (.registrationToken " filetok1 " none) infoRT
      = (.ok (b,
          { infoRT with
            session := some (session_or_fresh envW infoRT)
            completed := infoRT.completed ++ [AuthType.registrationToken] }), db') :=
  (try_auth_registration_token.2 envW [] testAlice "DEV" " filetok1 " none infoRT infoRT
    rfl).1 (by decide)

/-- The stored progress of the C7 counterexample session: its only flow
requires the Dummy stage, which Password can never satisfy. -/
def info7 : UiaaInfo :=
  { flows := [AuthFlow.mk [.dummy]], completed := [],
    session := some "sess7", auth_error := none }

/-- The session store right after creating that session. -/
def db7 : SessionStore := [((testAlice, "DEV", "sess7"), info7)]

/-- A password proof for alice carrying the C7 session token. -/
def authPw7 (pw : String) : AuthData :=
  .password (some (.userIdOrLocalpart "alice")) pw (some "sess7")

/-- First call of the C7 scenario: wrong password. -/
def run7a : Except UiaaError (Bool × UiaaInfo) × SessionStore :=
  try_auth envW db7 testAlice "DEV" (authPw7 "wrong") emptyInfo

/-- Second call, from the store the first call left behind: wrong
password again. -/
def run7b : Except UiaaError (Bool × UiaaInfo) × SessionStore :=
  try_auth envW run7a.2 testAlice "DEV" (authPw7 "wrong") emptyInfo

/-- Third call, from the store the second call left behind: the correct
password. -/
def run7c : Except UiaaError (Bool × UiaaInfo) × SessionStore :=
  try_auth envW run7b.2 testAlice "DEV" (authPw7 "correct") emptyInfo

/-- C7 counterexample: the claim quantifies over sessions created with
any flows, but for a session created with flows = [[Dummy]] the
wrong-wrong-correct password sequence ends with the third call returning
(false, progress), not (true, progress): completing Password satisfies no
declared flow. -/
theorem try_auth_three_calls_cex :
    create testAlice "DEV" info7 "request" [] []
      = some ([((testAlice, "DEV", "sess7"), "request")], db7)
    ∧ run7a.1 = .ok (false, { info7 with auth_error := some invalidPasswordBody })
    ∧ run7b.1 = .ok (false, { info7 with auth_error := some invalidPasswordBody })
    ∧ run7c.1 = .ok (false, { info7 with completed := [AuthType.password] }) :=
  ⟨rfl, rfl, rfl, rfl⟩

/-- C7 amended: for a session created with flows some flow of which has
all stages equal to Password (for example [[Password]]), submitting a
wrong password leaves the store exactly as created (so a second wrong
attempt is the identical call with the identical outcome), and the call
with the correct password returns (true, progress) where completed
contains Password exactly once and auth_error is absent. -/
theorem try_auth_retry_then_correct (env : Env) (db : SessionStore) (cache : ReplayCache)
    (user_id : UserId) (device_id body s username : String)
    (uid : UserId) (hash pwWrong pwRight : String) (flows : List AuthFlow)
    (fallback : UiaaInfo)
    (hparse : env.parse_with_server_name username env.server_name = some uid)
    (hlp : uid.localpart = user_id.localpart)
    (hhash : env.password_hash uid = some hash)
    (hw : env.verify_password pwWrong hash = false)
    (hc : env.verify_password pwRight hash = true)
    (hflow : ∃ flow ∈ flows, ∀ st ∈ flow.stages, st = AuthType.password) :
    ∃ cache1 db1,
      create user_id device_id
          { flows := flows, completed := [], session := some s, auth_error := none }
          body cache db
        = some (cache1, db1)
      ∧ try_auth env db1 user_id device_id
            (.password (some (.userIdOrLocalpart username)) pwWrong (some s)) fallback
          = (.ok (false,
              { flows := flows, completed := [], session := some s,
                auth_error := some invalidPasswordBody }), db1)
      ∧ try_auth env db1 user_id device_id
            (.password (some (.userIdOrLocalpart username)) pwRight (some s)) fallback
          = (.ok (true,
              { flows := flows, completed := [AuthType.password], session := some s,
                auth_error := none }), store_del db1 (user_id, device_id, s))
      ∧ List.count AuthType.password [AuthType.password] = 1 := by
  have hsat : is_satisfied flows [AuthType.password] = true := by
    rw [is_satisfied_eq_any]
    simp only [List.any_eq_true, List.all_eq_true]
    obtain ⟨flow, hmem, hall⟩ := hflow
    refine ⟨flow, hmem, fun st hst => ?_⟩
    simp [hall st hst]
  refine ⟨set_uiaa_request cache user_id device_id s body,
    store_put db (user_id, device_id, s)
      { flows := flows, completed := [], session := some s, auth_error := none },
    rfl, ?_, ?_, by simp⟩
  · have hload : load_session
        (store_put db (user_id, device_id, s)
          { flows := flows, completed := [], session := some s, auth_error := none })
        user_id device_id
        (.password (some (.userIdOrLocalpart username)) pwWrong (some s)) fallback
      = .ok { flows := flows, completed := [], session := some s, auth_error := none } := by
      simp [load_session, AuthData.session, get_uiaa_session, store_get_put_self]
    simp [try_auth, hload, verify_stage, hparse, hlp, hhash, hw, session_or_fresh]
  · have hload : load_session
        (store_put db (user_id, device_id, s)
          { flows := flows, completed := [], session := some s, auth_error := none })
        user_id device_id
        (.password (some (.userIdOrLocalpart username)) pwRight (some s)) fallback
      = .ok { flows := flows, completed := [], session := some s, auth_error := none } := by
      simp [load_session, AuthData.session, get_uiaa_session, store_get_put_self]
    simp [try_auth, hload, verify_stage, hparse, hlp, hhash, hc, session_or_fresh, hsat,
      update_uiaa_session]

theorem try_auth_retry_then_correct_witness :
    ∃ cache1 db1,
      create testAlice "DEV"
          { flows := [AuthFlow.mk [.password]], completed := [],
            session := some "sessW7", auth_error := none }
          "request" [] []
        = some (cache1, db1)
      ∧ try_auth envW db1 testAlice "DEV"
            (.password (some (.userIdOrLocalpart "alice")) "wrong" (some "sessW7")) emptyInfo
          = (.ok (false,
              { flows := [AuthFlow.mk [.password]], completed := [], session := some "sessW7",
                auth_error := some invalidPasswordBody }), db1)
      ∧ try_auth envW db1 testAlice "DEV"
            (.password (some (.userIdOrLocalpart "alice")) "correct" (some "sessW7")) emptyInfo
          = (.ok (true,
              { flows := [AuthFlow.mk [.password]], completed := [AuthType.password],
                session := some "sessW7", auth_error := none }),
            store_del db1 (testAlice, "DEV", "sessW7"))
      ∧ List.count AuthType.password [AuthType.password] = 1 :=
  try_auth_retry_then_correct envW [] [] testAlice "DEV" "request" "sessW7" "alice"
    { localpart := "alice", server_name := "example.org" } "goodhash" "wrong" "correct"
    [AuthFlow.mk [.password]] emptyInfo rfl rfl rfl rfl rfl
    ⟨AuthFlow.mk [.password], List.mem_singleton.mpr rfl, by
      intro st hst
      simpa using hst⟩

/-- Store well-formedness: every stored progress records the session token
it is stored under.  This holds for every store built by create and
try_auth, whose writes always key the progress by its own session token. -/
def store_wf (db : SessionStore) : Prop :=
  ∀ k info, store_get db k = some info → info.session = some k.2.2

/-- One try_auth call either leaves the store unchanged, deletes one
session key, or overwrites one session key with a progress recording that
key's token. -/
theorem try_auth_db_shape (env : Env) (db : SessionStore) (u : UserId) (d : String)
    (auth : AuthData) (info : UiaaInfo) :
    (try_auth env db u d auth info).2 = db
    ∨ (∃ s, (try_auth env db u d auth info).2 = store_del db (u, d, s))
    ∨ (∃ s info2, (try_auth env db u d auth info).2 = store_put db (u, d, s) info2
        ∧ info2.session = some s) := by
  cases hload : load_session db u d auth info with
  | error e => left; simp [try_auth, hload]
  | ok info0 =>
    cases hver : verify_stage env u auth
        { info0 with session := some (session_or_fresh env info0) } with
    | error e => left; simp [try_auth, hload, hver]
    | ok outcome =>
      cases outcome with
      | softFail i2 => left; simp [try_auth, hload, hver]
      | proceed info2 =>
        obtain ⟨hf, hsess2, ha, hc⟩ := verify_stage_proceed_shape env u auth _ _ hver
        cases hsat : is_satisfied info2.flows info2.completed with
        | true =>
          right; left
          exact ⟨session_or_fresh env info0, by
            simp [try_auth, hload, hver, hsat, update_uiaa_session]⟩
        | false =>
          right; right
          refine ⟨session_or_fresh env info0, info2, by
            simp [try_auth, hload, hver, hsat, update_uiaa_session], by simpa using hsess2⟩

theorem try_auth_preserves_wf (env : Env) (db : SessionStore) (u : UserId) (d : String)
    (auth : AuthData) (info : UiaaInfo) (hwf : store_wf db) :
    store_wf (try_auth env db u d auth info).2 := by
  rcases try_auth_db_shape env db u d auth info with h | ⟨s, h⟩ | ⟨s, info2, h, hsess⟩
  · rw [h]; exact hwf
  · rw [h]
    intro k q hq
    by_cases hk : k = (u, d, s)
    · subst hk; rw [store_get_del_self] at hq; cases hq
    · rw [store_get_del_ne db _ _ hk] at hq
      exact hwf k q hq
  · rw [h]
    intro k q hq
    by_cases hk : k = (u, d, s)
    · subst hk
      rw [store_get_put_self] at hq
      cases hq
      exact hsess
    · rw [store_get_put_ne db _ _ _ hk] at hq
      exact hwf k q hq

/-- A try_auth call carrying session token s, against a well-formed
store, either leaves the store unchanged, deletes exactly the key
(u, d, s), or overwrites that key with a progress whose completed list
extends the stored one. -/
theorem try_auth_session_db_cases (env : Env) (db : SessionStore) (u : UserId) (d s : String)
    (auth : AuthData) (info : UiaaInfo) (hs : auth.session = some s) (hwf : store_wf db) :
    (try_auth env db u d auth info).2 = db
    ∨ (try_auth env db u d auth info).2 = store_del db (u, d, s)
    ∨ ∃ p info2, store_get db (u, d, s) = some p
        ∧ (try_auth env db u d auth info).2 = store_put db (u, d, s) info2
        ∧ p.completed ⊆ info2.completed := by
  cases hget : store_get db (u, d, s) with
  | none =>
    left
    rw [try_auth_unknown_session env db u d auth info s hs hget]
  | some p =>
    have hsess : p.session = some s := hwf _ _ hget
    have hload : load_session db u d auth info = .ok p := by
      simp [load_session, hs, get_uiaa_session, hget]
    have hfresh : session_or_fresh env p = s := by simp [session_or_fresh, hsess]
    cases hver : verify_stage env u auth { p with session := some s } with
    | error e => left; simp [try_auth, hload, hfresh, hver]
    | ok outcome =>
      cases outcome with
      | softFail i2 => left; simp [try_auth, hload, hfresh, hver]
      | proceed info2 =>
        obtain ⟨hf, hsess2, ha, hc⟩ := verify_stage_proceed_shape env u auth _ _ hver
        cases hsat : is_satisfied info2.flows info2.completed with
        | true =>
          right; left
          simp [try_auth, hload, hfresh, hver, hsat, update_uiaa_session]
        | false =>
          right; right
          refine ⟨p, info2, rfl, by
            simp [try_auth, hload, hfresh, hver, hsat, update_uiaa_session], ?_⟩
          rcases hc with h | ⟨st, h⟩
          · simp only [h]
            simp
          · simp only [h]
            simp

theorem try_auth_absent_stays_absent (env : Env) (db : SessionStore) (u : UserId)
    (d s : String) (auth : AuthData) (info : UiaaInfo) (k : SessionKey)
    (hs : auth.session = some s) (hwf : store_wf db)
    (hget : store_get db k = none) :
    store_get (try_auth env db u d auth info).2 k = none := by
  rcases try_auth_session_db_cases env db u d s auth info hs hwf with h | h | ⟨p, info2, hp, h, _⟩
  · rw [h]; exact hget
  · rw [h]
    by_cases hk : k = (u, d, s)
    · subst hk; exact store_get_del_self db _
    · rw [store_get_del_ne db _ _ hk]; exact hget
  · rw [h]
    by_cases hk : k = (u, d, s)
    · subst hk; rw [hp] at hget; cases hget
    · rw [store_get_put_ne db _ _ _ hk]; exact hget

/-- One session-carrying try_auth call never shrinks the completed list
persisted under any key: each stored progress is either deleted wholesale
or replaced by one whose completed list contains every stage of the old
one. -/
theorem try_auth_step_monotone (env : Env) (db : SessionStore) (u : UserId)
    (d s : String) (auth : AuthData) (info : UiaaInfo)
    (hs : auth.session = some s) (hwf : store_wf db) :
    ∀ k p, store_get db k = some p →
      store_get (try_auth env db u d auth info).2 k = none
      ∨ ∃ p', store_get (try_auth env db u d auth info).2 k = some p'
          ∧ p.completed ⊆ p'.completed := by
  intro k p hp
  rcases try_auth_session_db_cases env db u d s auth info hs hwf with
    h | h | ⟨q, info2, hq, h, hsub⟩
  · right; exact ⟨p, by rw [h]; exact hp, List.Subset.refl _⟩
  · by_cases hk : k = (u, d, s)
    · left; subst hk; rw [h]; exact store_get_del_self db _
    · right; exact ⟨p, by rw [h, store_get_del_ne db _ _ hk]; exact hp, List.Subset.refl _⟩
  · by_cases hk : k = (u, d, s)
    · subst hk
      have hqp : q = p := by rw [hq] at hp; exact Option.some.inj hp
      right
      exact ⟨info2, by rw [h]; exact store_get_put_self db _ _, hqp ▸ hsub⟩
    · right; exact ⟨p, by rw [h, store_get_put_ne db _ _ _ hk]; exact hp, List.Subset.refl _⟩

/-- One try_auth invocation: its environment, caller identity and device,
submitted proof, and fallback flow definition. -/
structure Call where
  env : Env
  user_id : UserId
  device_id : String
  auth : AuthData
  uiaainfo : UiaaInfo

/-- The session store a call leaves behind. -/
def run_call (c : Call) (db : SessionStore) : SessionStore :=
  (try_auth c.env db c.user_id c.device_id c.auth c.uiaainfo).2

/-- The session store after a sequence of try_auth calls. -/
def run_calls (cs : List Call) (db : SessionStore) : SessionStore :=
  cs.foldl (fun d c => run_call c d) db

theorem run_calls_absent (cs : List Call) :
    ∀ db : SessionStore, store_wf db →
    (∀ c ∈ cs, (AuthData.session c.auth).isSome = true) →
    ∀ k, store_get db k = none → store_get (run_calls cs db) k = none := by
  induction cs with
  | nil => intro db _ _ k hk; exact hk
  | cons c cs ih =>
    intro db hwf hall k hk
    obtain ⟨s, hs⟩ := Option.isSome_iff_exists.mp (hall c (List.mem_cons_self c cs))
    have h1 : store_get (run_call c db) k = none :=
      try_auth_absent_stays_absent c.env db c.user_id c.device_id s c.auth c.uiaainfo k
        hs hwf hk
    exact ih (run_call c db)
      (try_auth_preserves_wf c.env db c.user_id c.device_id c.auth c.uiaainfo hwf)
      (fun x hx => hall x (List.mem_cons_of_mem c hx)) k h1

/-- C8: across any sequence of try_auth calls that carry session tokens,
against a well-formed store, the persisted completed set is monotonically
non-decreasing: whenever a key holds progress p before the sequence and
progress p' after it, every stage completed in p is still completed in
p'. -/
theorem completed_monotone_calls (cs : List Call) :
    ∀ db : SessionStore, store_wf db →
    (∀ c ∈ cs, (AuthData.session c.auth).isSome = true) →
    ∀ k p p', store_get db k = some p →
      store_get (run_calls cs db) k = some p' →
      p.completed ⊆ p'.completed := by
  induction cs with
  | nil =>
    intro db _ _ k p p' hp hp'
    rw [run_calls] at hp'
    simp only [List.foldl_nil] at hp'
    rw [hp] at hp'
    cases hp'
    exact List.Subset.refl _
  | cons c cs ih =>
    intro db hwf hall k p p' hp hp'
    obtain ⟨s, hs⟩ := Option.isSome_iff_exists.mp (hall c (List.mem_cons_self c cs))
    have hwf1 : store_wf (run_call c db) :=
      try_auth_preserves_wf c.env db c.user_id c.device_id c.auth c.uiaainfo hwf
    have hall1 : ∀ x ∈ cs, (AuthData.session x.auth).isSome = true :=
      fun x hx => hall x (List.mem_cons_of_mem c hx)
    have hp'' : store_get (run_calls cs (run_call c db)) k = some p' := by
      rw [run_calls, List.foldl_cons] at hp'
      exact hp'
    rcases try_auth_step_monotone c.env db c.user_id c.device_id s c.auth c.uiaainfo hs hwf
        k p hp with hnone | ⟨p1, hp1, hsub⟩
    · rw [run_calls_absent cs (run_call c db) hwf1 hall1 k hnone] at hp''
      cases hp''
    · exact List.Subset.trans hsub (ih (run_call c db) hwf1 hall1 k p1 p' hp1 hp'')

/-- The stored progress of the C8 witness session: Password already
completed, a flow that requires RegistrationToken keeps it alive. -/
def infoC8 : UiaaInfo :=
  { flows := [AuthFlow.mk [.registrationToken]], completed := [AuthType.password],
    session := some "sessC8", auth_error := none }

/-- A store holding exactly that session. -/
def dbC8 : SessionStore := [((testAlice, "DEV", "sessC8"), infoC8)]

/-- The C8 witness call sequence: one Dummy proof against that session. -/
def csC8 : List Call :=
  [{ env := envW, user_id := testAlice, device_id := "DEV",
     auth := .dummy (some "sessC8"), uiaainfo := emptyInfo }]

theorem completed_monotone_calls_witness :
    infoC8.completed ⊆ [AuthType.password, AuthType.dummy] :=
  completed_monotone_calls csC8 dbC8
    (by
      intro k info h
      simp only [dbC8, store_get] at h
      split at h
      · rename_i heq
        cases h
        rw [← heq]
        rfl
      · cases h)
    (by
      intro c hc
      simp only [csC8, List.mem_singleton] at hc
      subst hc
      rfl)
    (testAlice, "DEV", "sessC8") infoC8
    { infoC8 with completed := [AuthType.password, AuthType.dummy] }
    rfl rfl

/-- The stored progress of the C9 counterexample session: the single
declared flow needs both Password and RegistrationToken, so proving
Password never completes it. -/
def infoC9 : UiaaInfo :=
  { flows := [AuthFlow.mk [.password, .registrationToken]], completed := [],
    session := some "sess9", auth_error := none }

/-- A store holding exactly that session. -/
def dbC9 : SessionStore := [((testAlice, "DEV", "sess9"), infoC9)]

/-- A correct password proof for that session. -/
def authC9 : AuthData :=
  .password (some (.userIdOrLocalpart "alice")) "correct" (some "sess9")

/-- First correct-password call of the C9 scenario. -/
def run9a : Except UiaaError (Bool × UiaaInfo) × SessionStore :=
  try_auth envW dbC9 testAlice "DEV" authC9 emptyInfo

/-- Second correct-password call, from the store the first one left. -/
def run9b : Except UiaaError (Bool × UiaaInfo) × SessionStore :=
  try_auth envW run9a.2 testAlice "DEV" authC9 emptyInfo

/-- C9 counterexample: proving Password successfully in two consecutive
calls for the same session leaves Password twice in the completed list,
both in the returned snapshot and in the persisted progress, refuting the
at-most-once set semantics the claim asserts. -/
theorem completed_duplicates_cex :
    run9b.1 = .ok (false, { infoC9 with completed := [AuthType.password, AuthType.password] })
    ∧ store_get run9b.2 (testAlice, "DEV", "sess9")
      = some { infoC9 with completed := [AuthType.password, AuthType.password] }
    ∧ List.count AuthType.password [AuthType.password, AuthType.password] = 2 :=
  ⟨rfl, rfl, rfl⟩

/-- C9 amended: completed is a plain list, not a set: every successful
password verification appends Password to it unconditionally, so a stage
already present occurs at least twice after being proved again in a later
call; only membership, not multiplicity, feeds the flow check. -/
theorem try_auth_completed_appends (env : Env) (db : SessionStore) (user_id : UserId)
    (device_id username pw : String) (sess : Option String) (uiaainfo info0 : UiaaInfo)
    (uid : UserId) (hash : String)
    (hload : load_session db user_id device_id
      (.password (some (.userIdOrLocalpart username)) pw sess) uiaainfo = .ok info0)
    (hparse : env.parse_with_server_name username env.server_name = some uid)
    (hlp : uid.localpart = user_id.localpart)
    (hhash : env.password_hash uid = some hash)
    (hc : env.verify_password pw hash = true) :
    ∃ b db', try_auth env db user_id device_id
        (.password (some (.userIdOrLocalpart username)) pw sess) uiaainfo
      = (.ok (b,
          { info0 with
            session := some (session_or_fresh env info0)
            completed := info0.completed ++ [AuthType.password] }), db')
      ∧ (AuthType.password ∈ info0.completed →
          2 ≤ List.count AuthType.password (info0.completed ++ [AuthType.password])) := by
  have hcount : AuthType.password ∈ info0.completed →
      2 ≤ List.count AuthType.password (info0.completed ++ [AuthType.password]) := by
    intro hmem
    have h1 : 0 < List.count AuthType.password info0.completed :=
      List.count_pos_iff.mpr hmem
    have h2 : List.count AuthType.password [AuthType.password] = 1 := by simp
    rw [List.count_append, h2]
    omega
  cases hsat : is_satisfied info0.flows (info0.completed ++ [AuthType.password]) with
  | true =>
    refine ⟨true,
      update_uiaa_session db user_id device_id (session_or_fresh env info0) none, ?_, hcount⟩
    simp [try_auth, hload, verify_stage, hparse, hlp, hhash, hc, hsat]
  | false =>
    refine ⟨false, update_uiaa_session db user_id device_id (session_or_fresh env info0)
      (some { info0 with
              session := some (session_or_fresh env info0)
              completed := info0.completed ++ [AuthType.password] }), ?_, hcount⟩
    simp [try_auth, hload, verify_stage, hparse, hlp, hhash, hc, hsat]

theorem try_auth_completed_appends_witness :
    ∃ b db', try_auth envW run9a.2 testAlice "DEV"
        (.password (some (.userIdOrLocalpart "alice")) "correct" (some "sess9")) emptyInfo
      = (.ok (b,
          { { infoC9 with completed := [AuthType.password] } with
            session := some (session_or_fresh envW
              { infoC9 with completed := [AuthType.password] })
            completed := { infoC9 with completed := [AuthType.password] }.completed
              ++ [AuthType.password] }), db')
      ∧ (AuthType.password
            ∈ ({ infoC9 with completed := [AuthType.password] } : UiaaInfo).completed →
          2 ≤ List.count AuthType.password
            (({ infoC9 with completed := [AuthType.password] } : UiaaInfo).completed
              ++ [AuthType.password])) :=
  try_auth_completed_appends envW run9a.2 testAlice "DEV" "alice" "correct" (some "sess9")
    emptyInfo { infoC9 with completed := [AuthType.password] }
    { localpart := "alice", server_name := "example.org" } "goodhash"
    rfl rfl rfl rfl rfl

theorem request_get_erase_ne (cache : ReplayCache) (k k' : SessionKey) (h : k' ≠ k) :
    request_get (cache.filter (fun p => p.1 ≠ k)) k' = request_get cache k' := by
  induction cache with
  | nil => rfl
  | cons x xs ih =>
    have hne : ¬ (k = k') := fun he => h he.symm
    by_cases hx : x.1 = k
    · have hx' : ¬ (x.1 = k') := by rw [hx]; exact hne
      simpa [request_get, List.filter_cons, hx, hx', hne] using ih
    · by_cases hk' : x.1 = k'
      · simp [request_get, List.filter_cons, hx, hk', h, hne]
      · simpa [request_get, List.filter_cons, hx, hk', hne] using ih

/-- C10: the source unwraps uiaainfo.session with expect, so create
panics before writing anything when the token is absent (modelled as the
none result, with neither store touched); when the token is present, the
replay cache gains the request body and the session store gains the
initial progress, both under exactly that token, with every other key of
either map left unchanged. -/
theorem create_requires_session (user_id : UserId) (device_id : String)
    (uiaainfo : UiaaInfo) (json_body : String) (cache : ReplayCache) (db : SessionStore) :
    (uiaainfo.session = none →
      create user_id device_id uiaainfo json_body cache db = none)
    ∧ (∀ s, uiaainfo.session = some s →
      ∃ cache1 db1,
        create user_id device_id uiaainfo json_body cache db = some (cache1, db1)
        ∧ get_uiaa_request cache1 user_id (some device_id) s = some json_body
        ∧ store_get db1 (user_id, device_id, s) = some uiaainfo
        ∧ (∀ k, k ≠ (user_id, device_id, s) → store_get db1 k = store_get db k)
        ∧ (∀ u' d' s', (u', d', s') ≠ ((user_id, device_id, s) : SessionKey) →
            get_uiaa_request cache1 u' (some d') s'
              = get_uiaa_request cache u' (some d') s')) := by
  constructor
  · intro hnone
    simp [create, hnone]
  · intro s hs
    refine ⟨set_uiaa_request cache user_id device_id s json_body,
      store_put db (user_id, device_id, s) uiaainfo,
      by simp [create, hs, update_uiaa_session],
      ?_, store_get_put_self db _ _, ?_, ?_⟩
    · simp [get_uiaa_request, set_uiaa_request, request_get]
    · intro k hk
      exact store_get_put_ne db _ _ _ hk
    · intro u' d' s' hk
      have hne : ¬ ((user_id, device_id, s) : SessionKey) = (u', d', s') :=
        fun he => hk he.symm
      simp only [get_uiaa_request, set_uiaa_request, Option.getD, request_get]
      rw [if_neg hne]
      exact request_get_erase_ne cache _ _ hk

theorem create_requires_session_witness :
    (create testAlice "DEV" emptyInfo "request" [] [] = none)
    ∧ ∃ cache1 db1,
        create testAlice "DEV" info7 "request" [] [] = some (cache1, db1)
        ∧ get_uiaa_request cache1 testAlice (some "DEV") "sess7" = some "request"
        ∧ store_get db1 (testAlice, "DEV", "sess7") = some info7
        ∧ (∀ k, k ≠ (testAlice, "DEV", "sess7") → store_get db1 k = store_get [] k)
        ∧ (∀ u' d' s', (u', d', s') ≠ ((testAlice, "DEV", "sess7") : SessionKey) →
            get_uiaa_request cache1 u' (some d') s' = get_uiaa_request [] u' (some d') s') :=
  ⟨(create_requires_session testAlice "DEV" emptyInfo "request" [] []).1 rfl,
   (create_requires_session testAlice "DEV" info7 "request" [] []).2 "sess7" rfl⟩

end Uiaa
